import Mathlib

/-!
Verification development for the esm-logging repository (a quasi-port of the
CPython logging module to TypeScript). The definitions below are a shallow
embedding of src/src/log-level.ts, src/src/logger.ts, src/src/manager.ts and
src/src/logging/index.ts; levels are JavaScript numbers restricted to integers
(every level in the repository is an integer constant), and JS object property
tables are association lists with string keys, since JS coerces every property
key to a string.
-/

namespace EsmLogging

/-- A JavaScript string-or-number value, as used by the polymorphic level
lookup getLevelName(level: string|number) in src/src/log-level.ts. -/
inductive JSVal where
  | num (n : Int)
  | str (s : String)
  deriving DecidableEq

/-- Property-key coercion of a JavaScript value: a property access obj[k]
always coerces the key to a string, so the numeric level 80 and the string
made of its decimal digits address the same property slot. -/
def jsKey : JSVal → String
  | .num n => toString n
  | .str s => s

/-- Lookup in an association list, modelling a JS object property read. -/
def lookupA {κ α : Type} [DecidableEq κ] : List (κ × α) → κ → Option α
  | [], _ => none
  | p :: rest, k => if p.1 = k then some p.2 else lookupA rest k

/-- Update-or-append in an association list, modelling a JS object property
write: last write wins, an existing key keeps its slot. -/
def setKey {κ α : Type} [DecidableEq κ] : List (κ × α) → κ → α → List (κ × α)
  | [], k, v => [(k, v)]
  | p :: rest, k, v => if p.1 = k then (k, v) :: rest else p :: setKey rest k v

/-- Level constants of src/src/log-level.ts (identical in logger.ts and
logging/index.ts). FATAL and WARN are exported constants aliasing CRITICAL
and WARNING. -/
def CRITICAL : Int := 50

def FATAL : Int := CRITICAL

def ERROR : Int := 40

def WARNING : Int := 30

def WARN : Int := WARNING

def INFO : Int := 20

def DEBUG : Int := 10

def NOTSET : Int := 0

/-- The two module-level level maps LEVELTONAME and NAMETOLEVEL. Keys are JS
property keys, hence strings in both maps. -/
structure LevelRegistry where
  leveltoname : List (String × String)
  nametolevel : List (String × Int)
  deriving DecidableEq

/-- Initial contents of LEVELTONAME (src/src/log-level.ts:54-61) and
NAMETOLEVEL (src/src/log-level.ts:63-70). The object literal for LEVELTONAME
has integer-like keys, which JS stores in ascending numeric order. Note that
NAMETOLEVEL contains only the six canonical names: the synonym constants
FATAL and WARN are never entered as keys. -/
def initLevelRegistry : LevelRegistry :=
  { leveltoname := [("0", "NOTSET"), ("10", "DEBUG"), ("20", "INFO"),
                    ("30", "WARNING"), ("40", "ERROR"), ("50", "CRITICAL")],
    nametolevel := [("CRITICAL", CRITICAL), ("ERROR", ERROR), ("WARNING", WARNING),
                    ("INFO", INFO), ("DEBUG", DEBUG), ("NOTSET", NOTSET)] }

/-- getLevelName (src/src/log-level.ts:81-87): first consults LEVELTONAME with
the (string-coerced) argument, then NAMETOLEVEL, then falls back to the
synthetic string "Level <arg>". -/
def getLevelName (reg : LevelRegistry) (level : JSVal) : JSVal :=
  match lookupA reg.leveltoname (jsKey level) with
  | some result => .str result
  | none =>
    match lookupA reg.nametolevel (jsKey level) with
    | some result => .num result
    | none => .str ("Level " ++ jsKey level)

/-- addLevelName (src/src/log-level.ts:95-98): writes level -> name into
LEVELTONAME (under the stringified numeric key) and name -> level into
NAMETOLEVEL. -/
def addLevelName (reg : LevelRegistry) (level : Int) (levelName : String) : LevelRegistry :=
  { leveltoname := setKey reg.leveltoname (toString level) levelName,
    nametolevel := setKey reg.nametolevel levelName level }

/-- A LogRecord (src/src/logging/index.ts:271-283): the constructor stores
levelno, levelname := getLevelName(level) and scope; the message text is not
stored on the record. -/
structure LogRecord where
  levelno : Int
  levelname : JSVal
  scope : String
  deriving DecidableEq

/-- Logger.makeRecord with the default record factory and default log options
(extra = null), src/src/logging/index.ts:1055-1084: the extra-merging loop is
skipped and the factory output is returned as is. -/
def makeRecord (reg : LevelRegistry) (scope : String) (level : Int) (_msg : String) : LogRecord :=
  { levelno := level, levelname := getLevelName reg (.num level), scope := scope }

/-- A Filter (src/src/logging/index.ts:518-548 and src/src/logger.ts:205-235)
stores the scope and its length slen. -/
structure Filter where
  scope : String
  slen : Nat
  deriving DecidableEq

/-- The Filter constructor: slen is the scope length. -/
def Filter.new (scope : String) : Filter := { scope := scope, slen := scope.length }

/-- Filter.filter (src/src/logging/index.ts:543-547, identical in
src/src/logger.ts:230-234). JS reading: the guard
record.scope.substring(0, slen) is falsy exactly when that substring is the
empty string, and record.scope[slen] is undefined (hence not equal to the dot)
when slen is out of range. Scopes are modelled as lists of characters, which
agrees with UTF-16 indexing on the ASCII scope names the module uses. -/
def Filter.filter (f : Filter) (record : LogRecord) : Bool :=
  if f.slen = 0 ∨ f.scope = record.scope then true
  else if record.scope.toList.take f.slen = [] then false
  else decide (record.scope.toList.get? f.slen = some '.')

/-- Modelled from the spec: a record matches when the filter scope is empty,
equals the record scope, or is a dot-bounded proper ancestor of it. Stated for
comparison with Filter.filter above. -/
def filterMatchesSpec (f : Filter) (record : LogRecord) : Bool :=
  f.scope == "" || record.scope == f.scope
    || (f.scope ++ ".").toList.isPrefixOf record.scope.toList

/-- A Handler as the dispatch walk sees it: its threshold level and an
identity hid used to record which handler instances had handle() called. -/
structure Handler where
  hid : Nat
  level : Int
  deriving DecidableEq

/-- The per-Logger fields consulted by getEffectiveLevel and callHandlers
(src/src/logging/index.ts:960-968): explicit level (0 = NOTSET), propagate
(default true), disabled (default false) and the attached handler list. A
logger together with its parent chain is a list of these nodes, self first;
the end of the list is the null parent. -/
structure LoggerNode where
  scope : String := ""
  level : Int := 0
  propagate : Bool := true
  disabled : Bool := false
  handlers : List Handler := []
  deriving DecidableEq

/-- Logger.getEffectiveLevel (src/src/logging/index.ts:1009-1018): walk self,
then parent, ..., returning the first truthy (non-zero) explicit level, and
NOTSET when the walk falls off the chain. -/
def getEffectiveLevel : List LoggerNode → Int
  | [] => NOTSET
  | n :: rest => if n.level = 0 then getEffectiveLevel rest else n.level

/-- The Manager state the logger methods read and write
(src/src/manager.ts:45-121, src/src/logger.ts:609-686): the global disable
threshold (initially 0), the one-shot no-handler warning flag, and the
scope-to-logger table. Logger identity is modelled by an allocation counter
nextId; the table maps a (string-coerced) scope key to the id of the stored
logger. -/
structure Manager where
  disable : Int := 0
  emittedNoHandlerWarning : Bool := false
  loggers : List (String × Nat) := []
  nextId : Nat := 0
  deriving DecidableEq

/-- A Manager with all fields at their initializers. -/
def freshManager : Manager := {}

/-- Truthiness of this.manager combined with the disable comparison, the
middle of the isEnabledFor condition: false when this.manager is undefined or
null. -/
def mgrDisableBelow : Option Manager → Int → Bool
  | some m, level => decide (m.disable < level)
  | none, _ => false

/-- Shared body of Logger.isEnabledFor (src/src/logger.ts:420-430, identical
text in src/src/logging/index.ts:1023-1033): early false when disabled; when
the cache has no entry for the queried level AND this.manager is truthy AND
manager.disable < level, the enablement is computed, cached and returned;
every other path stores false in the cache and returns false. The cache is a
JS object keyed by the numeric level; stringified integer keys are in
bijection with the integers, so Int keys are used directly. Returns the result
and the updated cache. -/
def isEnabledForCore (disabled : Bool) (cache : List (Int × Bool))
    (managerVal : Option Manager) (chain : List LoggerNode) (level : Int) :
    Bool × List (Int × Bool) :=
  if disabled then (false, cache)
  else if (lookupA cache level).isNone && mgrDisableBelow managerVal level then
    (decide (level ≥ getEffectiveLevel chain),
     setKey cache level (decide (level ≥ getEffectiveLevel chain)))
  else (false, setKey cache level false)

/-- The Logger of src/src/logger.ts (class Logger, lines 363-568): its manager
is a field assigned by the constructor, so it can actually be non-null. -/
structure Logger where
  node : LoggerNode
  ancestors : List LoggerNode := []
  cache : List (Int × Bool) := []
  manager : Option Manager := none
  deriving DecidableEq

/-- The parent chain starting at the logger itself. -/
def Logger.chainOf (lg : Logger) : List LoggerNode := lg.node :: lg.ancestors

/-- Logger.isEnabledFor of src/src/logger.ts:420-430. -/
def Logger.isEnabledFor (lg : Logger) (level : Int) : Bool × Logger :=
  ((isEnabledForCore lg.node.disabled lg.cache lg.manager lg.chainOf level).1,
   { lg with cache := (isEnabledForCore lg.node.disabled lg.cache lg.manager lg.chainOf level).2 })

/-- The while loop of Logger.callHandlers (src/src/logging/index.ts:1139-1150,
identical in src/src/logger.ts:536-547): at each node, for each attached
handler in attachment order, found is incremented (for EVERY attached handler,
before the threshold test) and handle() is called when
record.levelno >= handler.level; the walk moves to the parent unless the
node's propagate is false. Returns the handler ids whose handle() was called,
in call order, together with the final found counter. -/
def callHandlersWalk : List LoggerNode → Int → List Nat × Nat
  | [], _ => ([], 0)
  | n :: rest, lvl =>
    if n.propagate then
      (((n.handlers.filter (fun h => decide (lvl ≥ h.level))).map (fun h => h.hid))
          ++ (callHandlersWalk rest lvl).1,
       n.handlers.length + (callHandlersWalk rest lvl).2)
    else
      ((n.handlers.filter (fun h => decide (lvl ≥ h.level))).map (fun h => h.hid),
       n.handlers.length)

/-- Observable outcome of one callHandlers call: the handler ids invoked by
the walk, the found counter, whether lastResort.handle was called, whether the
one-off no-handler diagnostic was printed in this call, and the manager state
afterwards. -/
structure DispatchResult where
  invoked : List Nat
  found : Nat
  lastResortUsed : Bool
  warned : Bool
  manager : Option Manager
  deriving DecidableEq

/-- Logger.callHandlers (src/src/logging/index.ts:1135-1166, identical in
src/src/logger.ts:532-563): after the walk, only when found == 0 and the
module lastResort handler is truthy, lastResort.handle(record) is called when
record.levelno >= lastResort.level; in the opposite case the one-off
diagnostic is printed when throwErrors is set, this.manager is truthy and the
manager's emittedNoHandlerWarning flag is not yet set, and the flag is then
set. -/
def callHandlers (chain : List LoggerNode) (manager : Option Manager)
    (lastResort : Option Handler) (throwErrors : Bool) (levelno : Int) : DispatchResult :=
  if (callHandlersWalk chain levelno).2 = 0 then
    match lastResort with
    | some lr =>
      if levelno ≥ lr.level then
        { invoked := (callHandlersWalk chain levelno).1, found := (callHandlersWalk chain levelno).2,
          lastResortUsed := true, warned := false, manager := manager }
      else
        match manager with
        | some m =>
          if throwErrors && !m.emittedNoHandlerWarning then
            { invoked := (callHandlersWalk chain levelno).1, found := (callHandlersWalk chain levelno).2,
              lastResortUsed := false, warned := true,
              manager := some { m with emittedNoHandlerWarning := true } }
          else
            { invoked := (callHandlersWalk chain levelno).1, found := (callHandlersWalk chain levelno).2,
              lastResortUsed := false, warned := false, manager := manager }
        | none =>
          { invoked := (callHandlersWalk chain levelno).1, found := (callHandlersWalk chain levelno).2,
            lastResortUsed := false, warned := false, manager := none }
    | none =>
      { invoked := (callHandlersWalk chain levelno).1, found := (callHandlersWalk chain levelno).2,
        lastResortUsed := false, warned := false, manager := manager }
  else
    { invoked := (callHandlersWalk chain levelno).1, found := (callHandlersWalk chain levelno).2,
      lastResortUsed := false, warned := false, manager := manager }

/-- Modelled from the spec: the nodes the dispatch walk visits, in order -
self, parent, ..., stopping after (and including) the first node whose
propagate flag is false, or at the end of the chain. -/
def specVisited : List LoggerNode → List LoggerNode
  | [] => []
  | n :: rest => if n.propagate then n :: specVisited rest else [n]

/-- Modelled from the spec: at each visited node, in order, the attached
handlers in attachment order whose threshold is met by the record level. -/
def specInvoked (chain : List LoggerNode) (lvl : Int) : List Nat :=
  ((specVisited chain).map
    (fun n => (n.handlers.filter (fun h => decide (lvl ≥ h.level))).map (fun h => h.hid))).flatten

/-- The Logger class of src/src/logging/index.ts (lines 960-1187), whose
private _manager field is initialized null (line 963). -/
structure IdxLogger where
  node : LoggerNode
  ancestors : List LoggerNode := []
  _manager : Option Manager := none
  cache : List (Int × Bool) := []
  deriving DecidableEq

/-- Reading this.manager on a logging/index.ts Logger: the class declares only
a setter named manager and no getter (src/src/logging/index.ts:991-995), so in
JS the property read yields undefined, regardless of the private _manager
field (which nothing in the class ever assigns). -/
def IdxLogger.managerGet (_lg : IdxLogger) : Option Manager := none

/-- The manager setter (src/src/logging/index.ts:991-995): its body only
throws when this.manager is truthy (which it never is, see managerGet) and
otherwise performs no assignment at all, leaving _manager untouched. -/
def IdxLogger.managerSet (lg : IdxLogger) (_m : Manager) : Except String IdxLogger :=
  if (IdxLogger.managerGet lg).isSome then
    Except.error "logger can only be assigned to manager once"
  else Except.ok lg

/-- The Logger constructor (src/src/logging/index.ts:977-985): sets scope and
_level := checkLevel(level) (a number passes through unchanged); every other
field keeps its initializer - _manager null, parent null, propagate true,
disabled false, handlers empty, cache empty. -/
def IdxLogger.new (scope : String) (level : Int) : IdxLogger :=
  { node := { scope := scope, level := level } }

/-- Logger.isEnabledFor of src/src/logging/index.ts:1023-1033; the value of
this.manager comes from the setter-only accessor, i.e. managerGet. -/
def IdxLogger.isEnabledFor (lg : IdxLogger) (level : Int) : Bool × IdxLogger :=
  ((isEnabledForCore lg.node.disabled lg.cache (IdxLogger.managerGet lg)
      (lg.node :: lg.ancestors) level).1,
   { lg with cache := (isEnabledForCore lg.node.disabled lg.cache (IdxLogger.managerGet lg)
      (lg.node :: lg.ancestors) level).2 })

/-- Observable effects of one logging call: the record built (if any) and the
handler ids whose handle() the call invoked. -/
structure LogCallEffect where
  record : Option LogRecord := none
  handled : List Nat := []
  deriving DecidableEq

/-- Logger._log (src/src/logging/index.ts:1090-1110) with default options
(excInfo null, extra null): after merging option defaults,
`var record = this.makeRecord(...)` is the LAST statement of the body - the
method neither applies this.filter to the record nor calls this.handle or
this.callHandlers, so the handler-invocation list of the call is empty. -/
def IdxLogger.logLow (reg : LevelRegistry) (lg : IdxLogger) (level : Int) (msg : String) :
    LogCallEffect :=
  { record := some (makeRecord reg lg.node.scope level msg), handled := [] }

/-- Logger.debug (src/src/logging/index.ts:1045-1047): calls
this._log(DEBUG, msg) only when this.isEnabledFor(DEBUG). -/
def IdxLogger.debug (lg : IdxLogger) (reg : LevelRegistry) (msg : String) :
    LogCallEffect × IdxLogger :=
  if (IdxLogger.isEnabledFor lg DEBUG).1 then
    (IdxLogger.logLow reg (IdxLogger.isEnabledFor lg DEBUG).2 DEBUG msg,
     (IdxLogger.isEnabledFor lg DEBUG).2)
  else ({}, (IdxLogger.isEnabledFor lg DEBUG).2)

/-- Manager.getLogger (src/src/manager.ts:74-90, the same text with a manager
argument added at src/src/logger.ts:638-655 and src/src/logging/index.ts:862-878):
the whole body is guarded by the condition `typeof scope != 'string'` and the
method has no return statement, so for a string scope nothing happens and
undefined is returned; for a non-string scope a fresh Logger is always
constructed (nothing in the repository ever stores a Placeholder in the
loggers table, so the instanceof Placeholder branch is dead, and the else
branch unconditionally overwrites any existing entry) and undefined is still
returned. -/
def Manager.getLogger (m : Manager) (scope : JSVal) : Option Nat × Manager :=
  match scope with
  | .str _ => (none, m)
  | .num n =>
    (none, { m with loggers := setKey m.loggers (jsKey (.num n)) m.nextId,
                    nextId := m.nextId + 1 })

/-- The child logger of the spec's effective-level example: "a.b" with no
explicit level, ancestor "a" at INFO, root at WARNING. -/
def exampleABChain : List LoggerNode :=
  [{ scope := "a.b" }, { scope := "a", level := INFO }, { scope := "root", level := WARNING }]

/-- The dispatch fan-out example: "x.y" with destination D1 (hid 1),
parent "x" with destination D2 (hid 2) and propagate false, root with
destination D3 (hid 3). -/
def exampleXYChain : List LoggerNode :=
  [{ scope := "x.y", handlers := [{ hid := 1, level := 0 }] },
   { scope := "x", propagate := false, handlers := [{ hid := 2, level := 0 }] },
   { scope := "root", level := WARNING, handlers := [{ hid := 3, level := 0 }] }]

/-- A non-disabled logger with an associated manager (disable threshold 0) and
effective level WARNING inherited from its root. -/
def c3Logger : Logger :=
  { node := { scope := "a.b" }, ancestors := [{ scope := "root", level := WARNING }],
    manager := some freshManager }

/-- A single-node chain whose only attached handler has threshold 100. -/
def c5Chain : List LoggerNode := [{ scope := "x", handlers := [{ hid := 1, level := 100 }] }]

/-- A node with one attached handler at threshold NOTSET. -/
def c1Node : LoggerNode := { scope := "x", handlers := [{ hid := 1, level := 0 }] }

/-- A logging/index.ts logger sitting on c1Node. -/
def c1Logger : IdxLogger := { node := c1Node }

/-- A CRITICAL record with the given scope, for the filter examples. -/
def recScoped (s : String) : LogRecord :=
  { levelno := CRITICAL, levelname := .str "CRITICAL", scope := s }

theorem lookupA_setKey_same {κ α : Type} [DecidableEq κ] (l : List (κ × α)) (k : κ) (v : α) :
    lookupA (setKey l k v) k = some v := by
  induction l with
  | nil => simp [setKey, lookupA]
  | cons p rest ih =>
    by_cases h : p.1 = k
    · simp [setKey, lookupA, h]
    · simp [setKey, lookupA, h, ih]

theorem getEffectiveLevel_eq_find (chain : List LoggerNode) :
    getEffectiveLevel chain
      = (((chain.find? (fun n => n.level != 0)).map (fun n => n.level)).getD NOTSET) := by
  induction chain with
  | nil => rfl
  | cons n rest ih =>
    by_cases h : n.level = 0
    · simp [getEffectiveLevel, List.find?_cons, h, ih]
    · simp [getEffectiveLevel, List.find?_cons, h]

theorem callHandlersWalk_eq_spec (chain : List LoggerNode) (lvl : Int) :
    (callHandlersWalk chain lvl).1 = specInvoked chain lvl := by
  induction chain with
  | nil => rfl
  | cons n rest ih =>
    by_cases h : n.propagate
    · simp [callHandlersWalk, specInvoked, specVisited, h, ih, specInvoked]
    · simp [callHandlersWalk, specInvoked, specVisited, h]

/-- C4: the dispatch walk visits self, parent, parent's parent, ... in that
order, invoking at each visited node every attached handler in attachment
order exactly when the record level meets the handler threshold, and stops
after the first visited node with propagate false (whose own handlers are
still processed) or at the end of the chain; in the "x.y" / "x" (propagate
false) / root example a CRITICAL record invokes exactly D1 then D2 and no
root destination. -/
theorem callHandlers_walk_order :
    (∀ (chain : List LoggerNode) (lvl : Int),
       (callHandlersWalk chain lvl).1 = specInvoked chain lvl)
    ∧ (callHandlers exampleXYChain none (some { hid := 9, level := WARNING }) true CRITICAL).invoked
        = [1, 2] := by
  refine ⟨callHandlersWalk_eq_spec, ?_⟩
  decide

/-- C5 counterexample: a dispatch in which zero destinations were invoked (the
only attached handler has threshold 100, above the CRITICAL record) and a
last-resort handler with threshold 0 exists, yet the fallback is NOT invoked,
because the code counts handlers encountered, not handlers invoked. -/
theorem callHandlers_threshold_blocks_fallback :
    (callHandlers c5Chain (some freshManager) (some { hid := 9, level := 0 }) true 50).invoked = []
    ∧ ((50 : Int) ≥ 0)
    ∧ (callHandlers c5Chain (some freshManager) (some { hid := 9, level := 0 }) true 50).lastResortUsed
        = false := by
  decide

/-- C5 amended: when the walk ENCOUNTERED zero attached destinations (the
found counter, which counts every attached handler whether or not its
threshold is met, is 0) and the last-resort destination exists, the fallback
handles the record exactly when the record level meets the fallback's own
threshold; the one-shot diagnostic fires only below the fallback threshold and
only when the manager's flag is unset, a dispatch against a manager whose flag
is already set never warns again, and the resulting manager state has the flag
set exactly when it was set before or the diagnostic just fired. -/
theorem callHandlers_lastResort_amended (chain : List LoggerNode) (m : Manager)
    (lr : Handler) (lvl : Int)
    (hfound : (callHandlersWalk chain lvl).2 = 0) :
    ((callHandlers chain (some m) (some lr) true lvl).lastResortUsed = decide (lvl ≥ lr.level))
    ∧ ((callHandlers chain (some m) (some lr) true lvl).warned
        = (!(decide (lvl ≥ lr.level)) && !m.emittedNoHandlerWarning))
    ∧ ((callHandlers chain (some { m with emittedNoHandlerWarning := true })
          (some lr) true lvl).warned = false)
    ∧ ((callHandlers chain (some m) (some lr) true lvl).manager
        = some { m with emittedNoHandlerWarning :=
            (m.emittedNoHandlerWarning
              || (!(decide (lvl ≥ lr.level)) && !m.emittedNoHandlerWarning)) }) := by
  obtain ⟨d, w, ls, ni⟩ := m
  by_cases hl : lvl ≥ lr.level
  · refine ⟨?_, ?_, ?_, ?_⟩ <;> simp [callHandlers, hfound, hl]
  · by_cases hw : w
    · refine ⟨?_, ?_, ?_, ?_⟩ <;> simp [callHandlers, hfound, hl, hw]
    · refine ⟨?_, ?_, ?_, ?_⟩ <;> simp [callHandlers, hfound, hl, hw]

/-- Witness for the amended C5 theorem at an empty chain, a fresh manager, a
last-resort handler at WARNING and a record at level 50. -/
theorem callHandlers_lastResort_amended_witness :
    ((callHandlers [] (some freshManager) (some { hid := 9, level := WARNING }) true 50).lastResortUsed
        = decide ((50 : Int) ≥ WARNING))
    ∧ ((callHandlers [] (some freshManager) (some { hid := 9, level := WARNING }) true 50).warned
        = (!(decide ((50 : Int) ≥ WARNING)) && !freshManager.emittedNoHandlerWarning))
    ∧ ((callHandlers [] (some { freshManager with emittedNoHandlerWarning := true })
          (some { hid := 9, level := WARNING }) true 50).warned = false)
    ∧ ((callHandlers [] (some freshManager) (some { hid := 9, level := WARNING }) true 50).manager
        = some { freshManager with emittedNoHandlerWarning :=
            (freshManager.emittedNoHandlerWarning
              || (!(decide ((50 : Int) ≥ WARNING)) && !freshManager.emittedNoHandlerWarning)) }) :=
  callHandlers_lastResort_amended [] freshManager { hid := 9, level := WARNING } 50 rfl

/-- C7: getEffectiveLevel returns the explicit level of the first node on the
chain self, parent, ... whose explicit level is non-zero, and NOTSET when the
walk reaches a null parent without finding one; the "a.b" / "a"(INFO) /
root(WARNING) example yields INFO. -/
theorem getEffectiveLevel_first_nonzero :
    (∀ chain : List LoggerNode,
       getEffectiveLevel chain
         = (((chain.find? (fun n => n.level != 0)).map (fun n => n.level)).getD NOTSET))
    ∧ getEffectiveLevel exampleABChain = INFO := by
  refine ⟨getEffectiveLevel_eq_find, ?_⟩
  decide

/-- C3: on a non-disabled logger with an associated manager whose disable
threshold is 0 and whose effective level is WARNING, the first
isEnabledFor(40) call returns true, but the repeated call with the same level
returns false: the cache-hit path falls through to `return this.cache[level]
= false` instead of returning the cached value. -/
theorem isEnabledFor_cache_hit_returns_false :
    (Logger.isEnabledFor c3Logger 40).1 = true
    ∧ (Logger.isEnabledFor (Logger.isEnabledFor c3Logger 40).2 40).1 = false
    ∧ ((40 : Int) ≥ getEffectiveLevel c3Logger.chainOf)
    ∧ ((0 : Int) < 40) := by
  decide

/-- C6: Filter('a.b') does match 'a.b' and 'a.b.c' and does reject 'a.bc' and
'a', but it also matches the entirely unrelated scope 'x.y.z' (any non-empty
scope with a dot at index slen), because the substring guard
`!record.scope.substring(0, slen)` only tests for an empty record scope;
the spec's dot-bounded prefix predicate rejects 'x.y.z'. -/
theorem filter_matches_unrelated_scope :
    Filter.filter (Filter.new "a.b") (recScoped "x.y.z") = true
    ∧ filterMatchesSpec (Filter.new "a.b") (recScoped "x.y.z") = false
    ∧ Filter.filter (Filter.new "a.b") (recScoped "a.b") = true
    ∧ Filter.filter (Filter.new "a.b") (recScoped "a.b.c") = true
    ∧ Filter.filter (Filter.new "a.b") (recScoped "a.bc") = false
    ∧ Filter.filter (Filter.new "a.b") (recScoped "a") = false := by
  decide

/-- C8 counterexample: register(80, "50") then numberOf("50") does not return
80 - the polymorphic lookup consults the number-to-name table first (JS object
keys are strings), finds the reserved level 50 and returns "CRITICAL". -/
theorem addLevelName_numeric_name_shadowed :
    getLevelName (addLevelName initLevelRegistry 80 "50") (.str "50") = .str "CRITICAL"
    ∧ getLevelName (addLevelName initLevelRegistry 80 "50") (.str "50") ≠ .num 80 := by
  decide

/-- C8 amended: after register(L, N), nameOf(L) = N holds UNCONDITIONALLY
(the number-to-name table is consulted first and the freshly written key
toString(L) is found there); and numberOf(N) = L provided N is not a key of
the number-to-name table after the registration (i.e. N is not the decimal
string of a number holding an entry there). -/
theorem addLevelName_roundtrip (reg : LevelRegistry) (L : Int) (N : String) :
    getLevelName (addLevelName reg L N) (.num L) = .str N
    ∧ (lookupA (addLevelName reg L N).leveltoname N = none →
        getLevelName (addLevelName reg L N) (.str N) = .num L) := by
  constructor
  · show getLevelName (addLevelName reg L N) (.num L) = .str N
    have h1 : lookupA (addLevelName reg L N).leveltoname (jsKey (.num L)) = some N := by
      simp [addLevelName, jsKey, lookupA_setKey_same]
    simp [getLevelName, h1]
  · intro h
    have h2 : lookupA (addLevelName reg L N).nametolevel (jsKey (.str N)) = some L := by
      simp [addLevelName, jsKey, lookupA_setKey_same]
    have h3 : lookupA (addLevelName reg L N).leveltoname (jsKey (.str N)) = none := h
    simp [getLevelName, h2, h3]

/-- Witness for the amended C8 theorem: the spec's own example
register(80, "FOOBAR") round-trips in both directions, the name direction
with its non-shadowing hypothesis discharged concretely. -/
theorem addLevelName_roundtrip_witness :
    getLevelName (addLevelName initLevelRegistry 80 "FOOBAR") (.num 80) = .str "FOOBAR"
    ∧ getLevelName (addLevelName initLevelRegistry 80 "FOOBAR") (.str "FOOBAR") = .num 80 :=
  ⟨(addLevelName_roundtrip initLevelRegistry 80 "FOOBAR").1,
   (addLevelName_roundtrip initLevelRegistry 80 "FOOBAR").2 (by decide)⟩

/-- C9 counterexample: the name-to-number lookup does not resolve the
synonyms: numberOf("FATAL") is not 50 and numberOf("WARN") is not 30. -/
theorem getLevelName_fatal_not_resolved :
    getLevelName initLevelRegistry (.str "FATAL") ≠ .num CRITICAL
    ∧ getLevelName initLevelRegistry (.str "WARN") ≠ .num WARNING := by
  decide

/-- C9 amended: FATAL and WARN exist only as exported numeric constants
(FATAL = CRITICAL, WARN = WARNING); they are not keys of the name map, so the
lookup returns the synthetic strings "Level FATAL" and "Level WARN" (exactly
what the repository's tests assert), while the canonical names CRITICAL and
WARNING resolve to 50 and 30. -/
theorem synonym_lookup_behavior :
    getLevelName initLevelRegistry (.str "FATAL") = .str "Level FATAL"
    ∧ getLevelName initLevelRegistry (.str "WARN") = .str "Level WARN"
    ∧ getLevelName initLevelRegistry (.str "CRITICAL") = .num 50
    ∧ getLevelName initLevelRegistry (.str "WARNING") = .num 30
    ∧ FATAL = CRITICAL ∧ WARN = WARNING := by
  decide

/-- C2: Manager.getLogger never returns a Logger at all - for every string
scope it returns undefined and leaves the manager untouched (the creation and
memoization code is guarded by `typeof scope != 'string'` and the method has
no return statement), and even for a non-string scope the method still returns
undefined. -/
theorem getLogger_returns_no_logger :
    (∀ (m : Manager) (s : String), Manager.getLogger m (.str s) = (none, m))
    ∧ (∀ (m : Manager) (v : JSVal), (Manager.getLogger m v).1 = none) := by
  refine ⟨fun m s => rfl, fun m v => ?_⟩
  cases v <;> rfl

/-- C1: Logger._log of the logging module builds the record via makeRecord
(with the record factory) but performs no handler invocation whatsoever - the
method body ends at the makeRecord call, never applying the filter chain and
never calling callHandlers - even for a logger holding a handler whose
threshold the record meets (for which the dispatch walk, had it been called,
would have invoked handler 1). -/
theorem log_builds_record_but_never_dispatches :
    (∀ (reg : LevelRegistry) (lg : IdxLogger) (level : Int) (msg : String),
       (IdxLogger.logLow reg lg level msg).handled = []
       ∧ (IdxLogger.logLow reg lg level msg).record = some (makeRecord reg lg.node.scope level msg))
    ∧ (callHandlers [c1Node] none (some { hid := 9, level := WARNING }) true CRITICAL).invoked = [1]
    ∧ (IdxLogger.logLow initLevelRegistry c1Logger CRITICAL "boom").handled = [] := by
  refine ⟨fun reg lg level msg => ⟨rfl, rfl⟩, ?_, rfl⟩
  decide

/-- C10: a Logger constructed by the logging module's Logger constructor has
no associated Manager: the constructor leaves the private _manager field null,
the manager setter assigns nothing (it returns the logger unchanged without
error), there is no manager getter (reading this.manager yields undefined),
and consequently isEnabledFor returns false for every level on such a
non-disabled logger, so debug builds no record and invokes no handler. -/
theorem constructor_never_associates_manager :
    (∀ (scope : String) (level : Int), (IdxLogger.new scope level)._manager = none)
    ∧ (∀ (lg : IdxLogger) (m : Manager), IdxLogger.managerSet lg m = Except.ok lg)
    ∧ (∀ lg : IdxLogger, IdxLogger.managerGet lg = none)
    ∧ (∀ (scope : String) (level L : Int),
         (IdxLogger.isEnabledFor (IdxLogger.new scope level) L).1 = false)
    ∧ (∀ (reg : LevelRegistry) (scope : String) (level : Int) (msg : String),
         (IdxLogger.debug (IdxLogger.new scope level) reg msg).1.record = none
         ∧ (IdxLogger.debug (IdxLogger.new scope level) reg msg).1.handled = []) := by
  exact ⟨fun scope level => rfl, fun lg m => rfl, fun lg => rfl,
         fun scope level L => rfl, fun reg scope level msg => ⟨rfl, rfl⟩⟩

end EsmLogging
